import Mathlib

/-!
Verification of the binary-operation dispatch engine of a columnar
query-processing layer (ArcticDB, `processing/operation_dispatch_binary.hpp`).

The kernels under verification (`binary_membership`, `visit_binary_membership`,
`binary_comparator` for Column/Column and Column/Value, `visit_binary_comparator`,
`binary_operator` for the Value/Value, Column/Column and Column/Value forms, and
`visit_binary_operator`) are translated from the source header.  The container
and type-system collaborators they consume (Column, BitSet, Value, ValueSet,
the string pool and the type-promotion resolver) are declared out of scope by
the specification and are not in the sources; those are modelled from the
specification, as marked on each definition.

Raw element values are modelled as unbounded integers: the specification's
unsigned-64 special-handling rule exists precisely so that mixed-sign
comparisons and membership tests behave as comparisons of the true
mathematical values, which ℤ gives directly.  String-pool offsets are
likewise carried as integers.  Floating-point payloads are represented by
their integer images; no claim below depends on the numeric value of a
floating-point result, only on result shapes, element types, mask sizes and
error behaviour.
-/

namespace ArcticDB

/-- Element types of columns, scalars and scalar sets.  `EMPTYVAL` is the
empty placeholder type of a column that has never received real data. -/
inductive DataType where
  | INT8 | INT16 | INT32 | INT64
  | UINT8 | UINT16 | UINT32 | UINT64
  | FLOAT32 | FLOAT64
  | BOOL8
  | ASCII_FIXED64 | UTF_FIXED64
  | ASCII_DYNAMIC64 | UTF_DYNAMIC64
  | EMPTYVAL
deriving DecidableEq, Repr

/-- Modelled from the spec: the type-system predicate classifying the empty
placeholder type. -/
def is_empty_type : DataType → Bool
  | .EMPTYVAL => true
  | _ => false

/-- Modelled from the spec: the type-system predicate classifying string
(sequence) element types, fixed- or variable-width. -/
def is_sequence_type : DataType → Bool
  | .ASCII_FIXED64 | .UTF_FIXED64 | .ASCII_DYNAMIC64 | .UTF_DYNAMIC64 => true
  | _ => false

/-- Modelled from the spec: the type-system predicate classifying fixed-width
string element types. -/
def is_fixed_string_type : DataType → Bool
  | .ASCII_FIXED64 | .UTF_FIXED64 => true
  | _ => false

/-- Modelled from the spec: the type-system predicate classifying the boolean
element type. -/
def is_bool_type : DataType → Bool
  | .BOOL8 => true
  | _ => false

/-- Modelled from the spec: the type-system predicate classifying numeric
(integer or floating) element types; bool, strings and the empty placeholder
are not numeric. -/
def is_numeric_type : DataType → Bool
  | .INT8 | .INT16 | .INT32 | .INT64
  | .UINT8 | .UINT16 | .UINT32 | .UINT64
  | .FLOAT32 | .FLOAT64 => true
  | _ => false

/-- Modelled from the spec: bit width of an integer element type. -/
def DataType.int_width : DataType → Nat
  | .INT8 | .UINT8 => 8
  | .INT16 | .UINT16 => 16
  | .INT32 | .UINT32 => 32
  | _ => 64

/-- Modelled from the spec: unsigned integer element types. -/
def DataType.is_unsigned : DataType → Bool
  | .UINT8 | .UINT16 | .UINT32 | .UINT64 => true
  | _ => false

/-- Modelled from the spec: floating element types. -/
def DataType.is_float : DataType → Bool
  | .FLOAT32 | .FLOAT64 => true
  | _ => false

/-- Modelled from the spec: the signed integer type of a given width. -/
def signed_of_width : Nat → DataType
  | 8 => .INT8
  | 16 => .INT16
  | 32 => .INT32
  | _ => .INT64

/-- Modelled from the spec: the unsigned integer type of a given width. -/
def unsigned_of_width : Nat → DataType
  | 8 => .UINT8
  | 16 => .UINT16
  | 32 => .UINT32
  | _ => .UINT64

/-- The four arithmetic operators of the operation catalog. -/
inductive ArithOp where
  | plus | minus | times | divide
deriving DecidableEq, Repr

/-- The six comparison operators of the operation catalog. -/
inductive ComparisonOp where
  | eq | ne | lt | le | gt | ge
deriving DecidableEq, Repr

/-- The two membership operators of the operation catalog. -/
inductive MembershipOp where
  | isIn | isNotIn
deriving DecidableEq, Repr

/-- Modelled from the spec: the type-promotion resolver (an external
collaborator, consumed but not implemented by the dispatch core).  Division
always promotes to a floating type regardless of inputs; otherwise numeric
widening applies, with the unsigned-64 vs signed mix resolved through a wider
signed representation. -/
def type_arithmetic_promoted_type (l r : DataType) (op : ArithOp) : DataType :=
  if op = ArithOp.divide then DataType.FLOAT64
  else if l.is_float || r.is_float then
    if l = DataType.FLOAT64 || r = DataType.FLOAT64 then DataType.FLOAT64
    else DataType.FLOAT32
  else if l.is_unsigned && r.is_unsigned then
    unsigned_of_width (max l.int_width r.int_width)
  else if l = DataType.UINT64 || r = DataType.UINT64 then DataType.INT64
  else signed_of_width (max l.int_width r.int_width)

/-- Value-level action of an arithmetic operator on raw values (carried as
unbounded integers; the floating result of divide is represented by its
integer image, which no claim inspects). -/
def ArithOp.apply : ArithOp → Int → Int → Int
  | .plus, a, b => a + b
  | .minus, a, b => a - b
  | .times, a, b => a * b
  | .divide, a, b => a / b

/-- Value-level action of a comparison operator on promoted raw values.
Promotion into a common comparable type (the Comparable resolver of the
source, with its unsigned-64 special handling) amounts to comparing the
mathematical values, which ℤ comparison gives directly. -/
def ComparisonOp.applyInt : ComparisonOp → Int → Int → Bool
  | .eq, a, b => a == b
  | .ne, a, b => a != b
  | .lt, a, b => decide (a < b)
  | .le, a, b => decide (a ≤ b)
  | .gt, a, b => decide (b < a)
  | .ge, a, b => decide (b ≤ a)

/-- Value-level action of a comparison operator on decoded strings. -/
def ComparisonOp.applyStr : ComparisonOp → String → String → Bool
  | .eq, a, b => a == b
  | .ne, a, b => a != b
  | .lt, a, b => compare a b == Ordering.lt
  | .le, a, b => compare a b != Ordering.gt
  | .gt, a, b => compare a b == Ordering.gt
  | .ge, a, b => compare a b != Ordering.lt

/-- Value-level action of a membership operator: test a value (or resolved
string-pool offset) against the typed value set.  The unsigned-64 special
handling path of the source tests the mathematical value, which the ℤ model
gives directly. -/
def MembershipOp.apply : MembershipOp → Int → List Int → Bool
  | .isIn, v, s => s.contains v
  | .isNotIn, v, s => !(s.contains v)

/-- Modelled from the spec: the sparsity bitmap of a sparse column — the
logical universe size and the strictly increasing list of logical row indices
that actually hold a stored value. -/
structure SparseMap where
  size : Nat
  positions : List Nat
deriving DecidableEq, Repr

/-- Modelled from the spec: a typed column — logically a fixed-length
sequence of raw values of one element type.  `values` are the physically
stored (dense) values; a sparse column additionally carries the sparsity
bitmap mapping dense slots to logical rows. -/
structure Column where
  dtype : DataType
  values : List Int
  sparseMap : Option SparseMap
deriving DecidableEq, Repr

/-- Modelled from the spec: the logical row count of a column (for a sparse
column, the size of the sparsity bitmap universe; for a dense column, the
number of stored values). -/
def Column.row_count (c : Column) : Nat :=
  match c.sparseMap with
  | some m => m.size
  | none => c.values.length

/-- Whether the column is sparse. -/
def Column.is_sparse (c : Column) : Bool :=
  c.sparseMap.isSome

/-- Modelled from the spec: a dense bit-vector with one bit per row, plus a
flag recording whether the storage-compaction step (`optimize`) has been
applied to it.  Compaction never changes the logical bits, only the internal
representation, so the flag is the observable content of that step. -/
structure BitSet where
  bits : List Bool
  optimized : Bool
deriving DecidableEq, Repr

/-- Read bit `k`; bits outside the vector read as false. -/
def BitSet.test (b : BitSet) (k : Nat) : Bool :=
  b.bits.getD k false

/-- The storage-compaction step: logical bits unchanged. -/
def BitSet.optimize (b : BitSet) : BitSet :=
  ⟨b.bits, true⟩

/-- Modelled from the spec: the shared string pool, mapping integer offsets
to string content (offset = index into the pool). -/
structure StringPool where
  strings : List String
deriving DecidableEq, Repr

/-- Modelled from the spec: `offset_for(value, column)` — resolve a string to
its offset in the column's pool; a string absent from the pool resolves to a
not-found offset that never equals a valid stored offset. -/
def get_offset_for_column (pool : StringPool) (s : String) : Int :=
  match pool.strings.findIdx? (· = s) with
  | some k => Int.ofNat k
  | none => -1

/-- Modelled from the spec: `offsets_for(value_set, column)` — resolve a set
of strings to the set of this pool's offsets; a null set pointer (the source
leaves the typed set unset when a fixed-width column reports no width)
resolves to the empty offset set. -/
def get_offsets_for_column (pool : StringPool) (strs : Option (List String)) : List Int :=
  match strs with
  | none => []
  | some l => l.filterMap (fun s => (pool.strings.findIdx? (· = s)).map Int.ofNat)

/-- Modelled from the spec: the UTF-32 fixed-width transcoding rule — pad a
string to the column's declared width, or fail when the string is too long to
represent at that width. -/
def ascii_to_padded_utf32 (s : String) (width : Nat) : Option String :=
  if s.length > width then none
  else some (s ++ String.mk (List.replicate (width - s.length) (Char.ofNat 0)))

/-- Strip trailing pad (null) characters from a decoded fixed-width string. -/
def stripTrailingNulls (s : String) : String :=
  String.mk ((s.data.reverse.dropWhile (· = Char.ofNat 0)).reverse)

/-- Modelled from the spec: a column together with its (non-owning) string
pool reference and, for fixed-width string columns, the declared fixed
width. -/
structure ColumnWithStrings where
  column : Column
  string_pool : StringPool
  fixed_width : Option Nat
deriving DecidableEq, Repr

/-- `get_fixed_width_string_size` of the source. -/
def ColumnWithStrings.get_fixed_width_string_size (cws : ColumnWithStrings) : Option Nat :=
  cws.fixed_width

/-- `string_at_offset` of the source: resolve a stored offset through this
column's own pool, optionally stripping fixed-width trailing pad
characters. -/
def string_at_offset (cws : ColumnWithStrings) (off : Int) (strip : Bool) : String :=
  let s := cws.string_pool.strings.getD off.toNat ""
  if strip then stripTrailingNulls s else s

/-- Modelled from the spec: a single typed scalar value.  The element type
may be any member of the element-type enumeration, the empty placeholder
included.  The numeric payload is `int_val`, the string payload `str_val`. -/
structure Value where
  dtype : DataType
  int_val : Int
  str_val : String
deriving DecidableEq, Repr

/-- Modelled from the spec: an immutable set of scalars of a single declared
type; `numeric_values` carries the contents when the base type is numeric or
bool, `string_values` when it is a string type. -/
structure ValueSet where
  base_type : DataType
  numeric_values : List Int
  string_values : List String
deriving DecidableEq, Repr

/-- `ValueSet::empty` of the source: emptiness of the underlying typed set. -/
def ValueSet.is_empty_set (vs : ValueSet) : Bool :=
  if is_sequence_type vs.base_type then vs.string_values.isEmpty
  else vs.numeric_values.isEmpty

/-- Modelled from the spec: `get_fixed_width_string_set` — the set contents
transcoded to the column's fixed width (values too long to transcode drop
out). -/
def ValueSet.get_fixed_width_string_set (vs : ValueSet) (width : Nat) : List String :=
  vs.string_values.filterMap (fun s => ascii_to_padded_utf32 s width)

/-- The structured error raised by the rejected paths: internal assertion
(`internal::raise`), runtime type errors (`util::raise_rte`), schema errors
(`schema::check`) and contract checks (`util::check`). -/
inductive Err where
  | assertionFailure (msg : String)
  | runtimeError (msg : String)
  | schemaError (msg : String)
  | checkFailure (msg : String)
deriving DecidableEq, Repr

/-- The result variant (`VariantData` of the source): the universal currency
between kernels — column, scalar, scalar set, mask, or a symbolic
empty/full sentinel. -/
inductive VariantData where
  | column : ColumnWithStrings → VariantData
  | value : Value → VariantData
  | valueSet : ValueSet → VariantData
  | bitset : BitSet → VariantData
  | emptyResult : VariantData
  | fullResult : VariantData
deriving DecidableEq, Repr

/-- Modelled from the spec: `Column::transform` into an output bitset sized
to `n` — apply `f` to each physically stored value at its dense slot; slots
beyond the stored values stay false. -/
def Column.transform_bits (c : Column) (n : Nat) (f : Int → Bool) : BitSet :=
  ⟨(List.range n).map (fun k =>
      match c.values[k]? with
      | some v => f v
      | none => false), false⟩

/-- Modelled from the spec: the two-column `Column::transform` into an output
bitset sized to `n` — apply `f` pairwise to the stored values at each dense
slot; slots beyond either column's stored values stay false. -/
def transform_bits2 (l r : Column) (n : Nat) (f : Int → Int → Bool) : BitSet :=
  ⟨(List.range n).map (fun k =>
      match l.values[k]?, r.values[k]? with
      | some a, some b => f a b
      | _, _ => false), false⟩

/-- The sparse scatter-back computation of `binary_membership` (the `replace`
bitset): a full-length bitset over the sparsity universe whose bit at the
k-th stored logical position is bit k of the dense result, false elsewhere. -/
def scatter_back (m : SparseMap) (dense : BitSet) : BitSet :=
  ⟨(List.range m.size).map (fun i =>
      match m.positions.findIdx? (· = i) with
      | some k => dense.test k
      | none => false), false⟩

/-- Modelled from the spec: `transform_to_placeholder` (defined in the
dispatch core outside this header) — convert an all-clear mask to the
EmptySentinel and an all-set mask to the FullSentinel; everything else passes
through unchanged. -/
def transform_to_placeholder : VariantData → VariantData
  | VariantData.bitset b =>
      if (b.bits.count true) = 0 then VariantData.emptyResult
      else if (b.bits.count true) = b.bits.length then VariantData.fullResult
      else VariantData.bitset b
  | v => v

/-- `binary_membership` of the source: the membership kernel over a column
and a scalar set.  Empty-placeholder column short-circuits to a sentinel;
an empty value set yields the materialized all-false (is-in) or all-true
(is-not-in) mask; otherwise the per-type dense computation runs, the mask is
compacted, the sparse scatter-back bitset `replace` is computed — and, as in
the source, discarded — and the dense mask is returned. -/
def binary_membership (cws : ColumnWithStrings) (vs : ValueSet) (op : MembershipOp) :
    Except Err VariantData :=
  if is_empty_type cws.column.dtype then
    match op with
    | .isIn => .ok VariantData.emptyResult
    | .isNotIn => .ok VariantData.fullResult
  else
    let n := cws.column.row_count
    let computed : Except Err BitSet :=
      if vs.is_empty_set then
        .ok (match op with
             | .isIn => BitSet.mk (List.replicate n false) false
             | .isNotIn => BitSet.mk (List.replicate n true) false)
      else if is_sequence_type cws.column.dtype && is_sequence_type vs.base_type then
        let typed_value_set : Option (List String) :=
          if is_fixed_string_type cws.column.dtype then
            match cws.get_fixed_width_string_size with
            | some w => some (vs.get_fixed_width_string_set w)
            | none => none
          else some vs.string_values
        let offset_set := get_offsets_for_column cws.string_pool typed_value_set
        .ok (cws.column.transform_bits n (fun v => op.apply v offset_set))
      else if is_bool_type cws.column.dtype && is_bool_type vs.base_type then
        .error (Err.runtimeError "Binary membership not implemented for bools")
      else if is_numeric_type cws.column.dtype && is_numeric_type vs.base_type then
        .ok (cws.column.transform_bits n (fun v => op.apply v vs.numeric_values))
      else
        .error (Err.runtimeError "Cannot check membership (possible categorical?)")
    match computed with
    | .error e => .error e
    | .ok output_bitset =>
      let output_bitset := output_bitset.optimize
      let _replace : Option BitSet :=
        cws.column.sparseMap.map (fun m => scatter_back m output_bitset)
      .ok (VariantData.bitset output_bitset)

/-- `visit_binary_membership` of the source: the dispatch wrapper for
membership — an EmptySentinel left operand short-circuits, a
Column/ValueSet pair runs the kernel (through `transform_to_placeholder`),
anything else is rejected. -/
def visit_binary_membership (left right : VariantData) (op : MembershipOp) :
    Except Err VariantData :=
  if left = VariantData.emptyResult then .ok VariantData.emptyResult
  else
    match left, right with
    | VariantData.column l, VariantData.valueSet r =>
        (binary_membership l r op).map transform_to_placeholder
    | _, _ =>
        .error (Err.runtimeError "Binary membership operations must be Column/ValueSet")

/-- `binary_comparator` of the source, Column/Column form: empty placeholder
on either side short-circuits to the EmptySentinel; differing row counts are
a fatal contract violation; otherwise the per-type dense computation runs
(string columns resolved through their own pools, with fixed-width pad
stripping) and the materialized mask is returned without compaction. -/
def binary_comparator_cc (l r : ColumnWithStrings) (op : ComparisonOp) :
    Except Err VariantData :=
  if is_empty_type l.column.dtype || is_empty_type r.column.dtype then
    .ok VariantData.emptyResult
  else if l.column.row_count ≠ r.column.row_count then
    .error (Err.checkFailure "Columns with different row counts in binary comparator")
  else
    let n := l.column.row_count
    if is_sequence_type l.column.dtype && is_sequence_type r.column.dtype then
      let strip := is_fixed_string_type l.column.dtype || is_fixed_string_type r.column.dtype
      .ok (VariantData.bitset (transform_bits2 l.column r.column n (fun a b =>
        op.applyStr (string_at_offset l a strip) (string_at_offset r b strip))))
    else if (is_numeric_type l.column.dtype && is_numeric_type r.column.dtype) ||
            (is_bool_type l.column.dtype && is_bool_type r.column.dtype) then
      .ok (VariantData.bitset (transform_bits2 l.column r.column n (fun a b =>
        op.applyInt a b)))
    else
      .error (Err.runtimeError "Cannot compare column types (possible categorical?)")

/-- `binary_comparator` of the source, Column/Value form (with the
`arguments_reversed` flag): empty placeholder column short-circuits to the
EmptySentinel; string comparison transcodes the scalar to the column's fixed
width when needed, resolves its pool offset and compares offset-vs-offset;
numeric/bool comparison compares the scalar value per row; any other type
pairing (the empty placeholder scalar included) is a runtime type error. -/
def binary_comparator_cv (cws : ColumnWithStrings) (val : Value) (op : ComparisonOp)
    (arguments_reversed : Bool) : Except Err VariantData :=
  if is_empty_type cws.column.dtype then
    .ok VariantData.emptyResult
  else
    let n := cws.column.row_count
    if is_sequence_type cws.column.dtype && is_sequence_type val.dtype then
      let value_string : String :=
        if is_fixed_string_type cws.column.dtype then
          match cws.get_fixed_width_string_size with
          | some w => (ascii_to_padded_utf32 val.str_val w).getD ""
          | none => ""
        else val.str_val
      let value_offset := get_offset_for_column cws.string_pool value_string
      .ok (VariantData.bitset (cws.column.transform_bits n (fun v =>
        if arguments_reversed then op.applyInt v value_offset
        else op.applyInt value_offset v)))
    else if (is_numeric_type cws.column.dtype && is_numeric_type val.dtype) ||
            (is_bool_type cws.column.dtype && is_bool_type val.dtype) then
      .ok (VariantData.bitset (cws.column.transform_bits n (fun v =>
        if arguments_reversed then op.applyInt val.int_val v
        else op.applyInt v val.int_val)))
    else
      .error (Err.runtimeError "Cannot compare column type to value type (possible categorical?)")

/-- `visit_binary_comparator` of the source: an EmptySentinel on either side
short-circuits; Column/Value, Column/Column and Value/Column run the
comparator kernel (through `transform_to_placeholder`, with the reversed
flag for Value/Column); two Value inputs are rejected; remaining pairings
(bitsets, value sets) are rejected. -/
def visit_binary_comparator (left right : VariantData) (op : ComparisonOp) :
    Except Err VariantData :=
  if left = VariantData.emptyResult ∨ right = VariantData.emptyResult then
    .ok VariantData.emptyResult
  else
    match left, right with
    | VariantData.column l, VariantData.value r =>
        (binary_comparator_cv l r op false).map transform_to_placeholder
    | VariantData.column l, VariantData.column r =>
        (binary_comparator_cc l r op).map transform_to_placeholder
    | VariantData.value l, VariantData.column r =>
        (binary_comparator_cv r l op true).map transform_to_placeholder
    | VariantData.value _, VariantData.value _ =>
        .error (Err.runtimeError "Two value inputs not accepted to binary comparators")
    | _, _ =>
        .error (Err.runtimeError "Bitset/ValueSet inputs not accepted to binary comparators")

/-- `binary_operator` of the source, Value/Value form: each side must be
numeric (raised in order, left first); the result is a single scalar whose
element type is the promoted type for the operator. -/
def binary_operator_vv (l r : Value) (op : ArithOp) : Except Err VariantData :=
  if ¬ is_numeric_type l.dtype then
    .error (Err.runtimeError "Non-numeric type provided to binary operation")
  else if ¬ is_numeric_type r.dtype then
    .error (Err.runtimeError "Non-numeric type provided to binary operation")
  else
    .ok (VariantData.value
      { dtype := type_arithmetic_promoted_type l.dtype r.dtype op
        int_val := op.apply l.int_val r.int_val
        str_val := "" })

/-- `binary_operator` of the source, Column/Column form: empty placeholder on
either side is a schema error; differing row counts are a fatal contract
violation; non-numeric element types are runtime type errors; the result is a
freshly allocated column of the promoted type computed elementwise. -/
def binary_operator_cc (l r : Column) (op : ArithOp) : Except Err VariantData :=
  if is_empty_type l.dtype || is_empty_type r.dtype then
    .error (Err.schemaError "Empty column provided to binary operator")
  else if l.row_count ≠ r.row_count then
    .error (Err.checkFailure "Columns with different row counts in binary operator")
  else if ¬ is_numeric_type l.dtype then
    .error (Err.runtimeError "Non-numeric type provided to binary operation")
  else if ¬ is_numeric_type r.dtype then
    .error (Err.runtimeError "Non-numeric type provided to binary operation")
  else
    let target := type_arithmetic_promoted_type l.dtype r.dtype op
    .ok (VariantData.column
      ⟨⟨target, List.zipWith op.apply l.values r.values, none⟩, ⟨[]⟩, none⟩)

/-- `binary_operator` of the source, Column/Value form (with the
`arguments_reversed` flag): empty placeholder column is a schema error;
non-numeric element types are runtime type errors; the result is a freshly
allocated column of the promoted type (promotion arguments in operand order)
with the scalar applied per row on the appropriate side. -/
def binary_operator_cv (col : Column) (val : Value) (op : ArithOp)
    (arguments_reversed : Bool) : Except Err VariantData :=
  if is_empty_type col.dtype then
    .error (Err.schemaError "Empty column provided to binary operator")
  else if ¬ is_numeric_type col.dtype then
    .error (Err.runtimeError "Non-numeric type provided to binary operation")
  else if ¬ is_numeric_type val.dtype then
    .error (Err.runtimeError "Non-numeric type provided to binary operation")
  else
    let target :=
      if arguments_reversed then type_arithmetic_promoted_type val.dtype col.dtype op
      else type_arithmetic_promoted_type col.dtype val.dtype op
    let f : Int → Int :=
      fun v => if arguments_reversed then op.apply val.int_val v else op.apply v val.int_val
    .ok (VariantData.column ⟨⟨target, col.values.map f, none⟩, ⟨[]⟩, none⟩)

/-- `visit_binary_operator` of the source: an EmptySentinel on either side
short-circuits; Column/Value, Column/Column, Value/Column and Value/Value
run the arithmetic kernel; remaining pairings are rejected. -/
def visit_binary_operator (left right : VariantData) (op : ArithOp) :
    Except Err VariantData :=
  if left = VariantData.emptyResult ∨ right = VariantData.emptyResult then
    .ok VariantData.emptyResult
  else
    match left, right with
    | VariantData.column l, VariantData.value r => binary_operator_cv l.column r op false
    | VariantData.column l, VariantData.column r => binary_operator_cc l.column r.column op
    | VariantData.value l, VariantData.column r => binary_operator_cv r.column l op true
    | VariantData.value l, VariantData.value r => binary_operator_vv l r op
    | _, _ =>
        .error (Err.runtimeError "Bitset/ValueSet inputs not accepted to binary operators")

end ArcticDB

namespace ArcticDB

theorem empty_type_eq {d : DataType} (h : is_empty_type d = true) :
    d = DataType.EMPTYVAL := by
  cases d <;> simp_all [is_empty_type]

theorem transform_bits2_length (l r : Column) (n : Nat) (f : Int → Int → Bool) :
    (transform_bits2 l r n f).bits.length = n := by
  simp [transform_bits2]

theorem transform_bits_length (c : Column) (n : Nat) (f : Int → Bool) :
    (c.transform_bits n f).bits.length = n := by
  simp [Column.transform_bits]

/-- Claim C2: for every column whose declared element type is the empty
placeholder and every scalar set, the membership kernel returns the
EmptySentinel when the operation is is-in and the FullSentinel when it is
is-not-in, never a materialized mask. -/
theorem C2_empty_column_membership (cws : ColumnWithStrings) (vs : ValueSet)
    (h : is_empty_type cws.column.dtype = true) :
    binary_membership cws vs MembershipOp.isIn = Except.ok VariantData.emptyResult ∧
    binary_membership cws vs MembershipOp.isNotIn = Except.ok VariantData.fullResult := by
  constructor <;> simp [binary_membership, h]

theorem C2_empty_column_membership_witness :
    is_empty_type (Column.mk DataType.EMPTYVAL [] none).dtype = true ∧
    (binary_membership ⟨⟨DataType.EMPTYVAL, [], none⟩, ⟨[]⟩, none⟩ ⟨DataType.INT64, [7], []⟩
        MembershipOp.isIn = Except.ok VariantData.emptyResult ∧
     binary_membership ⟨⟨DataType.EMPTYVAL, [], none⟩, ⟨[]⟩, none⟩ ⟨DataType.INT64, [7], []⟩
        MembershipOp.isNotIn = Except.ok VariantData.fullResult) :=
  ⟨by decide, C2_empty_column_membership ⟨⟨DataType.EMPTYVAL, [], none⟩, ⟨[]⟩, none⟩
    ⟨DataType.INT64, [7], []⟩ (by decide)⟩

/-- Claim C3: for every non-empty-typed column and an empty scalar set, the
membership kernel returns a materialized (non-symbolic) mask sized to the
column's row count, all-false for is-in and all-true for is-not-in. -/
theorem C3_empty_value_set_membership (cws : ColumnWithStrings) (vs : ValueSet)
    (h1 : is_empty_type cws.column.dtype = false)
    (h2 : vs.is_empty_set = true) :
    binary_membership cws vs MembershipOp.isIn =
      Except.ok (VariantData.bitset ⟨List.replicate cws.column.row_count false, true⟩) ∧
    binary_membership cws vs MembershipOp.isNotIn =
      Except.ok (VariantData.bitset ⟨List.replicate cws.column.row_count true, true⟩) := by
  constructor <;> simp [binary_membership, h1, h2, BitSet.optimize]

theorem C3_empty_value_set_membership_witness :
    is_empty_type (Column.mk DataType.INT64 [1, 2] none).dtype = false ∧
    (ValueSet.mk DataType.INT64 [] []).is_empty_set = true ∧
    (binary_membership ⟨⟨DataType.INT64, [1, 2], none⟩, ⟨[]⟩, none⟩ ⟨DataType.INT64, [], []⟩
        MembershipOp.isIn =
      Except.ok (VariantData.bitset
        ⟨List.replicate (Column.mk DataType.INT64 [1, 2] none).row_count false, true⟩) ∧
     binary_membership ⟨⟨DataType.INT64, [1, 2], none⟩, ⟨[]⟩, none⟩ ⟨DataType.INT64, [], []⟩
        MembershipOp.isNotIn =
      Except.ok (VariantData.bitset
        ⟨List.replicate (Column.mk DataType.INT64 [1, 2] none).row_count true, true⟩)) :=
  ⟨by decide, by decide, C3_empty_value_set_membership
    ⟨⟨DataType.INT64, [1, 2], none⟩, ⟨[]⟩, none⟩ ⟨DataType.INT64, [], []⟩
    (by decide) (by decide)⟩

/-- Claim C1 (refuted by the code, spec is the evident intent): on a sparse
INT64 column with logical row count 3, stored position 2 holding value 5,
tested is-in against the set containing 5, the membership kernel returns the
dense result at dense bit positions, mask [true, false, false] — while the
scatter-back bitset it builds from the sparse map (and then discards, as the
source does) is the full-length mask [false, false, true] that the claim and
the spec describe, with the dense bit scattered to stored position 2. -/
theorem C1_sparse_membership_code_bug :
    binary_membership ⟨⟨DataType.INT64, [5], some ⟨3, [2]⟩⟩, ⟨[]⟩, none⟩
        ⟨DataType.INT64, [5], []⟩ MembershipOp.isIn =
      Except.ok (VariantData.bitset ⟨[true, false, false], true⟩) ∧
    scatter_back ⟨3, [2]⟩ ⟨[true, false, false], true⟩ =
      ⟨[false, false, true], false⟩ ∧
    (VariantData.bitset ⟨[true, false, false], true⟩ ≠
      VariantData.bitset ⟨[false, false, true], true⟩) :=
  ⟨rfl, rfl, by decide⟩

/-- Claim C10: for every membership call through the dispatch wrapper where
the left operand is the EmptySentinel variant, the result is the
EmptySentinel regardless of the operation, and no error is raised. -/
theorem C10_membership_empty_sentinel (right : VariantData) (op : MembershipOp) :
    visit_binary_membership VariantData.emptyResult right op =
      Except.ok VariantData.emptyResult := by
  simp [visit_binary_membership]

/-- Claim C8: for every pair of Scalar operands and every comparison
operation, the dispatch wrapper rejects the call with an error; a
Scalar/Scalar comparison never produces a mask or sentinel. -/
theorem C8_scalar_scalar_comparison_rejected (op : ComparisonOp) (l r : Value) :
    visit_binary_comparator (VariantData.value l) (VariantData.value r) op =
      Except.error (Err.runtimeError "Two value inputs not accepted to binary comparators") := by
  simp [visit_binary_comparator]

end ArcticDB

namespace ArcticDB

theorem empty_not_numeric {d : DataType} (h : is_empty_type d = true) :
    is_numeric_type d = false := by
  cases d <;> simp_all [is_empty_type, is_numeric_type]

/-- Claim C4 counterexample: a comparison between a non-empty INT64 column
and a Scalar whose declared element type is the empty placeholder is rejected
with a runtime type error — the claim says it returns the EmptySentinel and
never an error. -/
theorem C4_counterexample :
    is_empty_type (Value.mk DataType.EMPTYVAL 0 "").dtype = true ∧
    visit_binary_comparator (VariantData.column ⟨⟨DataType.INT64, [1], none⟩, ⟨[]⟩, none⟩)
        (VariantData.value ⟨DataType.EMPTYVAL, 0, ""⟩) ComparisonOp.eq =
      Except.error
        (Err.runtimeError "Cannot compare column type to value type (possible categorical?)") :=
  ⟨rfl, rfl⟩

/-- Claim C4 (amended): for every comparison, an empty-placeholder element
type on either Column operand yields the EmptySentinel immediately (both in
the Column/Column form and for the column of the Column/Scalar form, in
either argument order); but a Scalar operand of empty placeholder type
against a non-empty column is rejected with a runtime type error, not turned
into a sentinel. -/
theorem C4_amended_empty_comparison :
    (∀ (op : ComparisonOp) (l r : ColumnWithStrings),
        is_empty_type l.column.dtype = true ∨ is_empty_type r.column.dtype = true →
        binary_comparator_cc l r op = Except.ok VariantData.emptyResult) ∧
    (∀ (op : ComparisonOp) (cws : ColumnWithStrings) (v : Value) (rev : Bool),
        is_empty_type cws.column.dtype = true →
        binary_comparator_cv cws v op rev = Except.ok VariantData.emptyResult) ∧
    (∀ (op : ComparisonOp) (cws : ColumnWithStrings) (v : Value) (rev : Bool),
        is_empty_type cws.column.dtype = false →
        is_empty_type v.dtype = true →
        binary_comparator_cv cws v op rev =
          Except.error
            (Err.runtimeError "Cannot compare column type to value type (possible categorical?)")) := by
  refine ⟨?_, ?_, ?_⟩
  · intro op l r h
    rcases h with h | h <;> simp [binary_comparator_cc, h]
  · intro op cws v rev h
    simp [binary_comparator_cv, h]
  · intro op cws v rev h1 h2
    obtain ⟨vd, vi, vstr⟩ := v
    have hv : vd = DataType.EMPTYVAL := empty_type_eq h2
    subst hv
    simp [binary_comparator_cv, h1, is_sequence_type, is_numeric_type, is_bool_type]

theorem C4_amended_empty_comparison_witness :
    (is_empty_type DataType.EMPTYVAL = true ∨ is_empty_type DataType.INT64 = true) ∧
    binary_comparator_cc ⟨⟨DataType.EMPTYVAL, [], none⟩, ⟨[]⟩, none⟩
        ⟨⟨DataType.INT64, [1], none⟩, ⟨[]⟩, none⟩ ComparisonOp.eq =
      Except.ok VariantData.emptyResult ∧
    binary_comparator_cv ⟨⟨DataType.EMPTYVAL, [], none⟩, ⟨[]⟩, none⟩
        ⟨DataType.INT64, 1, ""⟩ ComparisonOp.lt false =
      Except.ok VariantData.emptyResult ∧
    binary_comparator_cv ⟨⟨DataType.INT64, [1], none⟩, ⟨[]⟩, none⟩
        ⟨DataType.EMPTYVAL, 0, ""⟩ ComparisonOp.lt true =
      Except.error
        (Err.runtimeError "Cannot compare column type to value type (possible categorical?)") :=
  ⟨Or.inl rfl,
   C4_amended_empty_comparison.1 ComparisonOp.eq _ _ (Or.inl rfl),
   C4_amended_empty_comparison.2.1 ComparisonOp.lt _ _ false rfl,
   C4_amended_empty_comparison.2.2 ComparisonOp.lt _ _ true rfl rfl⟩

/-- Claim C5: for every arithmetic operation, an operand whose declared
element type is the empty placeholder is rejected with an error, in every
operand-shape form (Column/Column, Column/Scalar in either argument order,
Scalar/Scalar); the call never returns a sentinel or any other result. -/
theorem C5_arithmetic_rejects_empty :
    (∀ (op : ArithOp) (l r : Column),
        is_empty_type l.dtype = true ∨ is_empty_type r.dtype = true →
        ∃ e, binary_operator_cc l r op = Except.error e) ∧
    (∀ (op : ArithOp) (col : Column) (v : Value) (rev : Bool),
        is_empty_type col.dtype = true ∨ is_empty_type v.dtype = true →
        ∃ e, binary_operator_cv col v op rev = Except.error e) ∧
    (∀ (op : ArithOp) (l r : Value),
        is_empty_type l.dtype = true ∨ is_empty_type r.dtype = true →
        ∃ e, binary_operator_vv l r op = Except.error e) := by
  refine ⟨?_, ?_, ?_⟩
  · intro op l r h
    refine ⟨Err.schemaError "Empty column provided to binary operator", ?_⟩
    rcases h with h | h <;> simp [binary_operator_cc, h]
  · intro op col v rev h
    rcases h with h | h
    · exact ⟨Err.schemaError "Empty column provided to binary operator",
        by simp [binary_operator_cv, h]⟩
    · cases hc : is_empty_type col.dtype
      · cases hn : is_numeric_type col.dtype
        · exact ⟨Err.runtimeError "Non-numeric type provided to binary operation",
            by simp [binary_operator_cv, hc, hn]⟩
        · exact ⟨Err.runtimeError "Non-numeric type provided to binary operation",
            by simp [binary_operator_cv, hc, hn, empty_not_numeric h]⟩
      · exact ⟨Err.schemaError "Empty column provided to binary operator",
          by simp [binary_operator_cv, hc]⟩
  · intro op l r h
    rcases h with h | h
    · exact ⟨Err.runtimeError "Non-numeric type provided to binary operation",
        by simp [binary_operator_vv, empty_not_numeric h]⟩
    · cases hn : is_numeric_type l.dtype
      · exact ⟨Err.runtimeError "Non-numeric type provided to binary operation",
          by simp [binary_operator_vv, hn]⟩
      · exact ⟨Err.runtimeError "Non-numeric type provided to binary operation",
          by simp [binary_operator_vv, hn, empty_not_numeric h]⟩

theorem C5_arithmetic_rejects_empty_witness :
    (is_empty_type DataType.EMPTYVAL = true ∨ is_empty_type DataType.INT64 = true) ∧
    (∃ e, binary_operator_cc ⟨DataType.EMPTYVAL, [], none⟩ ⟨DataType.INT64, [1], none⟩
        ArithOp.plus = Except.error e) ∧
    (∃ e, binary_operator_cv ⟨DataType.INT64, [1], none⟩ ⟨DataType.EMPTYVAL, 0, ""⟩
        ArithOp.times false = Except.error e) ∧
    (∃ e, binary_operator_vv ⟨DataType.EMPTYVAL, 0, ""⟩ ⟨DataType.INT64, 1, ""⟩
        ArithOp.divide = Except.error e) :=
  ⟨Or.inl rfl,
   C5_arithmetic_rejects_empty.1 ArithOp.plus _ _ (Or.inl rfl),
   C5_arithmetic_rejects_empty.2.1 ArithOp.times _ _ false (Or.inr rfl),
   C5_arithmetic_rejects_empty.2.2 ArithOp.divide _ _ (Or.inl rfl)⟩

end ArcticDB

namespace ArcticDB

/-- The type pairings accepted by the comparator kernel: string/string,
numeric/numeric or bool/bool. -/
def comparable_column_types (l r : DataType) : Bool :=
  (is_sequence_type l && is_sequence_type r) ||
  (is_numeric_type l && is_numeric_type r) ||
  (is_bool_type l && is_bool_type r)

/-- Claim C6 counterexample: a Column/Column comparison between an
empty-placeholder-typed column with row count 0 and an INT64 column with row
count 3 — the row counts differ, yet the call returns the EmptySentinel
rather than failing, because the empty-type short-circuit precedes the
row-count check. -/
theorem C6_counterexample :
    (Column.mk DataType.EMPTYVAL [] none).row_count ≠
      (Column.mk DataType.INT64 [1, 2, 3] none).row_count ∧
    binary_comparator_cc ⟨⟨DataType.EMPTYVAL, [], none⟩, ⟨[]⟩, none⟩
        ⟨⟨DataType.INT64, [1, 2, 3], none⟩, ⟨[]⟩, none⟩ ComparisonOp.eq =
      Except.ok VariantData.emptyResult :=
  ⟨by decide, rfl⟩

/-- Claim C6 (amended): a Column/Column comparison with differing row counts
fails with the fatal contract-violation error provided neither column has the
empty placeholder element type (an empty-placeholder operand short-circuits
to the EmptySentinel before the row-count check); a Column/Column arithmetic
operation with differing row counts always fails with an error and never
returns a result (the contract-violation error when neither type is the
empty placeholder, the schema error otherwise). -/
theorem C6_amended_row_count_mismatch :
    (∀ (op : ComparisonOp) (l r : ColumnWithStrings),
        is_empty_type l.column.dtype = false →
        is_empty_type r.column.dtype = false →
        l.column.row_count ≠ r.column.row_count →
        binary_comparator_cc l r op =
          Except.error (Err.checkFailure "Columns with different row counts in binary comparator")) ∧
    (∀ (op : ArithOp) (l r : Column),
        l.row_count ≠ r.row_count →
        ∃ e, binary_operator_cc l r op = Except.error e) := by
  constructor
  · intro op l r h1 h2 h3
    simp [binary_comparator_cc, h1, h2, h3]
  · intro op l r h
    cases he : (is_empty_type l.dtype || is_empty_type r.dtype)
    · exact ⟨Err.checkFailure "Columns with different row counts in binary operator",
        by simp [binary_operator_cc, he, h]⟩
    · exact ⟨Err.schemaError "Empty column provided to binary operator",
        by simp [binary_operator_cc, he]⟩

theorem C6_amended_row_count_mismatch_witness :
    is_empty_type DataType.INT64 = false ∧
    (Column.mk DataType.INT64 [1] none).row_count ≠
      (Column.mk DataType.INT64 [1, 2] none).row_count ∧
    binary_comparator_cc ⟨⟨DataType.INT64, [1], none⟩, ⟨[]⟩, none⟩
        ⟨⟨DataType.INT64, [1, 2], none⟩, ⟨[]⟩, none⟩ ComparisonOp.ge =
      Except.error (Err.checkFailure "Columns with different row counts in binary comparator") ∧
    (∃ e, binary_operator_cc ⟨DataType.INT64, [1], none⟩ ⟨DataType.INT64, [1, 2], none⟩
        ArithOp.minus = Except.error e) :=
  ⟨rfl, by decide,
   C6_amended_row_count_mismatch.1 ComparisonOp.ge _ _ rfl rfl (by decide),
   C6_amended_row_count_mismatch.2 ArithOp.minus _ _ (by decide)⟩

/-- Claim C7: for every pair of numeric scalars and every arithmetic
operation, the Value/Value arithmetic kernel returns a single scalar whose
element type is the promoted type for that operator, never a column. -/
theorem C7_scalar_scalar_arithmetic (op : ArithOp) (l r : Value)
    (hl : is_numeric_type l.dtype = true) (hr : is_numeric_type r.dtype = true) :
    binary_operator_vv l r op =
      Except.ok (VariantData.value
        ⟨type_arithmetic_promoted_type l.dtype r.dtype op,
         op.apply l.int_val r.int_val, ""⟩) := by
  simp [binary_operator_vv, hl, hr]

theorem C7_scalar_scalar_arithmetic_witness :
    is_numeric_type DataType.INT32 = true ∧
    is_numeric_type DataType.UINT8 = true ∧
    binary_operator_vv ⟨DataType.INT32, 2, ""⟩ ⟨DataType.UINT8, 3, ""⟩ ArithOp.plus =
      Except.ok (VariantData.value
        ⟨type_arithmetic_promoted_type DataType.INT32 DataType.UINT8 ArithOp.plus,
         ArithOp.apply ArithOp.plus 2 3, ""⟩) :=
  ⟨rfl, rfl,
   C7_scalar_scalar_arithmetic ArithOp.plus ⟨DataType.INT32, 2, ""⟩ ⟨DataType.UINT8, 3, ""⟩
     rfl rfl⟩

/-- Claim C9 counterexample: the Column/Column comparison of INT64 [1] with
INT64 [2] under eq produces the materialized mask [false] with the
storage-compaction step not applied — the comparator kernel, unlike the
membership kernel, never compacts its output bitset before returning it. -/
theorem C9_counterexample :
    binary_comparator_cc ⟨⟨DataType.INT64, [1], none⟩, ⟨[]⟩, none⟩
        ⟨⟨DataType.INT64, [2], none⟩, ⟨[]⟩, none⟩ ComparisonOp.eq =
      Except.ok (VariantData.bitset ⟨[false], false⟩) ∧
    (BitSet.mk [false] false).optimized = false :=
  ⟨rfl, rfl⟩

/-- Claim C9 (amended): for every comparison that produces a materialized
mask — the Column/Column form, and the Column/Scalar form in either argument
order — the returned mask is a dense bit-vector sized to the row count; it is
returned without the storage-compaction step (compaction is performed by the
membership kernel, not by the comparator). -/
theorem C9_amended_mask_shape :
    (∀ (op : ComparisonOp) (l r : ColumnWithStrings),
        is_empty_type l.column.dtype = false →
        is_empty_type r.column.dtype = false →
        l.column.row_count = r.column.row_count →
        comparable_column_types l.column.dtype r.column.dtype = true →
        ∃ b : BitSet, binary_comparator_cc l r op = Except.ok (VariantData.bitset b) ∧
          b.bits.length = l.column.row_count ∧ b.optimized = false) ∧
    (∀ (op : ComparisonOp) (cws : ColumnWithStrings) (v : Value) (rev : Bool),
        is_empty_type cws.column.dtype = false →
        comparable_column_types cws.column.dtype v.dtype = true →
        ∃ b : BitSet, binary_comparator_cv cws v op rev = Except.ok (VariantData.bitset b) ∧
          b.bits.length = cws.column.row_count ∧ b.optimized = false) := by
  constructor
  · intro op l r h1 h2 h3 h4
    cases hseq : (is_sequence_type l.column.dtype && is_sequence_type r.column.dtype)
    · have hnb : ((is_numeric_type l.column.dtype && is_numeric_type r.column.dtype) ||
          (is_bool_type l.column.dtype && is_bool_type r.column.dtype)) = true := by
        have h4x := h4
        simp only [comparable_column_types, hseq, Bool.false_or] at h4x
        exact h4x
      refine ⟨transform_bits2 l.column r.column l.column.row_count
          (fun a b => op.applyInt a b), ?_, transform_bits2_length _ _ _ _, rfl⟩
      simp [binary_comparator_cc, h1, h2, h3, hseq, hnb]
    · refine ⟨transform_bits2 l.column r.column l.column.row_count
          (fun a b => op.applyStr
            (string_at_offset l a
              (is_fixed_string_type l.column.dtype || is_fixed_string_type r.column.dtype))
            (string_at_offset r b
              (is_fixed_string_type l.column.dtype || is_fixed_string_type r.column.dtype))),
          ?_, transform_bits2_length _ _ _ _, rfl⟩
      simp [binary_comparator_cc, h1, h2, h3, hseq]
  · intro op cws v rev h1 h4
    cases hseq : (is_sequence_type cws.column.dtype && is_sequence_type v.dtype)
    · have hnb : ((is_numeric_type cws.column.dtype && is_numeric_type v.dtype) ||
          (is_bool_type cws.column.dtype && is_bool_type v.dtype)) = true := by
        have h4x := h4
        simp only [comparable_column_types, hseq, Bool.false_or] at h4x
        exact h4x
      refine ⟨cws.column.transform_bits cws.column.row_count
          (fun x => if rev then op.applyInt v.int_val x else op.applyInt x v.int_val), ?_,
        transform_bits_length _ _ _, rfl⟩
      simp [binary_comparator_cv, h1, hseq, hnb]
    · refine ⟨cws.column.transform_bits cws.column.row_count
          (fun x =>
            if rev then
              op.applyInt x (get_offset_for_column cws.string_pool
                (if is_fixed_string_type cws.column.dtype then
                  match cws.get_fixed_width_string_size with
                  | some w => (ascii_to_padded_utf32 v.str_val w).getD ""
                  | none => ""
                 else v.str_val))
            else
              op.applyInt (get_offset_for_column cws.string_pool
                (if is_fixed_string_type cws.column.dtype then
                  match cws.get_fixed_width_string_size with
                  | some w => (ascii_to_padded_utf32 v.str_val w).getD ""
                  | none => ""
                 else v.str_val)) x), ?_,
        transform_bits_length _ _ _, rfl⟩
      simp [binary_comparator_cv, h1, hseq]

theorem C9_amended_mask_shape_witness :
    is_empty_type DataType.INT64 = false ∧
    (Column.mk DataType.INT64 [1] none).row_count =
      (Column.mk DataType.INT64 [2] none).row_count ∧
    comparable_column_types DataType.INT64 DataType.INT64 = true ∧
    (∃ b : BitSet,
      binary_comparator_cc ⟨⟨DataType.INT64, [1], none⟩, ⟨[]⟩, none⟩
          ⟨⟨DataType.INT64, [2], none⟩, ⟨[]⟩, none⟩ ComparisonOp.eq =
        Except.ok (VariantData.bitset b) ∧
      b.bits.length = (Column.mk DataType.INT64 [1] none).row_count ∧
      b.optimized = false) ∧
    (∃ b : BitSet,
      binary_comparator_cv ⟨⟨DataType.INT64, [1], none⟩, ⟨[]⟩, none⟩
          ⟨DataType.INT64, 2, ""⟩ ComparisonOp.lt false =
        Except.ok (VariantData.bitset b) ∧
      b.bits.length = (Column.mk DataType.INT64 [1] none).row_count ∧
      b.optimized = false) :=
  ⟨rfl, rfl, rfl,
   C9_amended_mask_shape.1 ComparisonOp.eq ⟨⟨DataType.INT64, [1], none⟩, ⟨[]⟩, none⟩
     ⟨⟨DataType.INT64, [2], none⟩, ⟨[]⟩, none⟩ rfl rfl rfl rfl,
   C9_amended_mask_shape.2 ComparisonOp.lt ⟨⟨DataType.INT64, [1], none⟩, ⟨[]⟩, none⟩
     ⟨DataType.INT64, 2, ""⟩ false rfl rfl⟩

end ArcticDB
